import Mathlib

/-!
Verification development for the phishing-detection backend's verdict-fusion
pipeline (`backend/src/controllers/scan_controller.py` and the helper modules
it calls).  Python functions are embedded shallowly: numbers are rationals,
Python floats that may be NaN/infinite are an explicit inductive, fallible
calls are `Except`-valued inputs, and dictionaries are structures.
-/

namespace PhishScan

/-- Python float values as seen by the backend: finite values are modelled as
rationals; NaN and the two infinities are explicit constructors. -/
inductive PyFloat where
  | finite (q : ℚ)
  | nan
  | inf
  | ninf
deriving DecidableEq

/-- Python `<` on floats: any comparison involving NaN is `False`. -/
def pyLt : PyFloat → PyFloat → Bool
  | .finite a, .finite b => decide (a < b)
  | .finite _, .inf => true
  | .finite _, _ => false
  | .ninf, .finite _ => true
  | .ninf, .inf => true
  | .ninf, _ => false
  | .inf, _ => false
  | .nan, _ => false

/-- Python `min(a, b)`: keeps the first argument unless the second compares
strictly smaller (so `min(a, nan) = a`, `min(nan, b) = nan`). -/
def pyMin (a b : PyFloat) : PyFloat := if pyLt b a then b else a

/-- Python `max(a, b)`: keeps the first argument unless the second compares
strictly larger (so `max(a, nan) = a`, `max(nan, b) = nan`). -/
def pyMax (a b : PyFloat) : PyFloat := if pyLt a b then b else a

/-- Python banker's rounding of a rational to the nearest integer
(ties go to the even integer), as performed by `round(x)`. -/
def pyRoundInt (x : ℚ) : ℤ :=
  if x - (Int.floor x : ℚ) < 1/2 then Int.floor x
  else if (1 : ℚ)/2 < x - (Int.floor x : ℚ) then Int.floor x + 1
  else if Int.floor x % 2 = 0 then Int.floor x else Int.floor x + 1

/-- Python `round(x, 2)` on exact rationals. -/
def pyRound2 (q : ℚ) : ℚ := ((pyRoundInt (q * 100) : ℤ) : ℚ) / 100

/-- The dynamic values `normalize_confidence` may receive.  A string argument
is recorded together with the outcome of Python `float()` on it (`none` when
it is unparseable, `some f` when it parses to the float `f` — note that
`float("nan")` and `float("inf")` succeed). -/
inductive ConfVal where
  | int (n : ℤ)
  | float (f : PyFloat)
  | bool (b : Bool)
  | str (parsed : Option PyFloat)
  | none
  | other
deriving DecidableEq

/-- Numeric tail of `normalize_confidence` (scan_controller.py lines 75-89):
the `>1` "already a percentage" heuristic with its 100 cap, otherwise the
probability clamp-and-scale, and the final 2-decimal rounding applied to
every numeric result. -/
def normNum (q : ℚ) : ℚ :=
  if q > 1 then
    (if q ≤ 100 then pyRound2 q else pyRound2 100)
  else pyRound2 (max 0 (min q 1) * 100)

/-- `normalize_confidence` (scan_controller.py lines 48-95).  Python `bool`
is an `int` subclass that is explicitly excluded from the NaN/infinity guard,
so `True`/`False` flow into the numeric branches as `1`/`0`; NaN, the
infinities (also when they arrive as parseable strings), unparseable strings,
`None` and every other type yield the 50.0 fallback. -/
def normalize_confidence : ConfVal → ℚ
  | .str Option.none => 50
  | .str (some (.finite q)) => normNum q
  | .str (some _) => 50
  | .float (.finite q) => normNum q
  | .float _ => 50
  | .int n => normNum (n : ℚ)
  | .bool b => normNum (if b then 1 else 0)
  | .none => 50
  | .other => 50

/-! ### String helpers

Python string primitives (`in`, `.lower()`, `.strip()`, `len`) are modelled
over `List Char` so that they evaluate by reduction. -/

/-- `leadMatch pat cs` holds when `pat` occurs at the very front of `cs`. -/
def leadMatch : List Char → List Char → Bool
  | [], _ => true
  | _ :: _, [] => false
  | p :: ps, c :: cs => p == c && leadMatch ps cs

/-- `subListOf pat cs`: Python `pat in cs` (contiguous substring test). -/
def subListOf (pat : List Char) : List Char → Bool
  | [] => leadMatch pat []
  | c :: cs => leadMatch pat (c :: cs) || subListOf pat cs

/-- Python `pat in hay` on strings. -/
def strHas (hay pat : String) : Bool := subListOf pat.data hay.data

/-- Python `s.lower()` (ASCII case folding suffices for the values involved). -/
def lowerChars (s : String) : List Char := s.data.map Char.toLower

/-- Python `pat in hay.lower()`. -/
def strHasLower (hay pat : String) : Bool := subListOf pat.data (lowerChars hay)

/-- Whitespace stripped by Python `str.strip()`. -/
def isPySpace (c : Char) : Bool :=
  c == ' ' || c == '\t' || c == '\n' || c == '\r' || c == '\x0b' || c == '\x0c'

/-- Python `s.strip()` over the character list. -/
def pyStrip (cs : List Char) : List Char :=
  ((cs.dropWhile isPySpace).reverse.dropWhile isPySpace).reverse

/-! ### Data model -/

/-- One suspicious finding, as the dicts appended in `scan_controller.py` /
`url_analyzer.py` (`type`, `value`, `reason`, `severity` keys). -/
structure SuspElem where
  type : String
  value : String
  reason : String
  severity : String
deriving DecidableEq

/-- Output of `verify_email_legitimacy` (email_verification.py lines 347-353);
the `reasons` / `authentication_passed` bookkeeping fields are not consumed by
the fusion pipeline and are omitted. -/
structure LegitimacyResult where
  is_legitimate : Bool
  confidence : ℚ
  trusted_provider : Option String
deriving DecidableEq

/-- Output of `PhishingDetector.predict` as consumed by the controller:
the `(prediction, confidence)` pair plus the `suspicious_keywords` entry of
the feature dict. -/
structure ClassifierOut where
  prediction : ℕ
  confidence : ℚ
  suspiciousKeywords : List String
deriving DecidableEq

/-- Output of `check_whitelist` (whitelist.py lines 362-424). -/
structure WhitelistCheck where
  is_whitelisted : Bool
  confidence : ℚ
  provider : Option String
deriving DecidableEq

/-- The `gemini` dict as read by the controller (`enabled`, and the
`verdict` / `confidence` keys whose absence raises the KeyError that the
controller's inner `try` swallows; a non-numeric confidence is folded into
`confidence = none` since it raises at the same guarded spot). -/
structure GeminiOut where
  enabled : Bool
  verdict : Option String
  confidence : Option ℚ
deriving DecidableEq

/-- A `(prediction, confidence)` working pair inside the fusion pipeline. -/
structure PredConf where
  prediction : ℕ
  confidence : ℚ
deriving DecidableEq

/-- Fusion state after the legitimacy-override step: the working pair plus
the `is_legitimate_service` flag recorded in the feature dict. -/
structure FusedState where
  prediction : ℕ
  confidence : ℚ
  legitOverride : Bool
deriving DecidableEq

/-- The scan-result artifact returned to the caller (`verdict`,
`confidence`, `suspiciousElements` keys of `scan_result`). -/
structure ScanResult where
  verdict : String
  confidence : ℚ
  suspiciousElements : List SuspElem
deriving DecidableEq

/-! ### LLM assist helper (`gemini_helper.analyze_email_with_gemini`) -/

/-- The JSON object recovered by `json.loads` in the helper: each field is
`none` when the key is missing (`data.get` default applies). -/
structure GeminiJson where
  verdict : Option String
  confidence : Option PyFloat
deriving DecidableEq

/-- Environment of one `analyze_email_with_gemini` call.  `attempt` is the
outcome of the guarded block (model call, `resp.text`, markdown cleanup and
`json.loads`, and `float(...)` on the confidence): `.error` when any of it
raises — API error, quota exhaustion, timeout or malformed (non-JSON)
response text. -/
structure GeminiEnv where
  clientAvailable : Bool
  apiKeySet : Bool
  configureOk : Bool
  attempt : Except String GeminiJson

/-- `max(0.0, min(1.0, c))` with Python float semantics. -/
def pyClamp01 (f : PyFloat) : PyFloat := pyMax (.finite 0) (pyMin (.finite 1) f)

/-- Rational reading of a clamped Python float (the clamp always produces a
finite value; the default is never reached). -/
def pyFloatToQ : PyFloat → ℚ
  | .finite q => q
  | _ => 0

/-- `analyze_email_with_gemini` (gemini_helper.py lines 52-104): client or
key missing, configuration failure, or any exception inside the guarded
block yields `enabled = false`; otherwise the parsed fields are normalized
(verdict defaulted/lowered to `safe`/`phishing`, confidence defaulted to 0.5
and clamped into `[0,1]`). -/
def analyzeEmailWithGemini (env : GeminiEnv) : GeminiOut :=
  if ¬ (env.clientAvailable = true ∧ env.apiKeySet = true ∧ env.configureOk = true) then
    { enabled := false, verdict := none, confidence := none }
  else
    match env.attempt with
    | .error _ => { enabled := false, verdict := none, confidence := none }
    | .ok data =>
      let v0 : String := ⟨lowerChars (data.verdict.getD "safe")⟩
      let v : String := if v0 = "phishing" ∨ v0 = "safe" then v0 else "safe"
      let c : ℚ := pyFloatToQ (pyClamp01 (data.confidence.getD (.finite (1/2))))
      { enabled := true, verdict := some v, confidence := some c }

/-! ### Legitimacy verifier (`email_verification.py`) -/

/-- Result of `verify_email_authentication` (email_verification.py lines
127-168), computed from the `Authentication-Results` header string. -/
structure AuthResults where
  has_authentication : Bool
  spf_passed : Bool
  dkim_passed : Bool
  dmarc_passed : Bool
deriving DecidableEq

/-- `verify_email_authentication`: the flags are set only when the header is
present (truthy), by substring search on its lowercase form. -/
def verify_email_authentication (authHeader : String) : AuthResults :=
  if authHeader = "" then
    { has_authentication := false, spf_passed := false
      dkim_passed := false, dmarc_passed := false }
  else
    { has_authentication := true
      spf_passed := strHasLower authHeader "spf=pass"
      dkim_passed := strHasLower authHeader "dkim=pass"
      dmarc_passed := strHasLower authHeader "dmarc=pass" }

/-- The `auth_score` accumulator of `verify_email_legitimacy` (one point per
passing SPF/DKIM/DMARC check, email_verification.py lines 407-416). -/
def authScore (a : AuthResults) : ℕ :=
  (if a.spf_passed then 1 else 0) + (if a.dkim_passed then 1 else 0) +
    (if a.dmarc_passed then 1 else 0)

/-- Inputs of one `verify_email_legitimacy` call.  The sub-checks that
depend on external tables/network are recorded as their results:
`googlePattern` is `detect_google_email_patterns(email_data)`, `isTrusted` /
`provider` are `is_trusted_provider(sender)`, and `legitUrls` /`suspUrls`
are the counts from `analyze_urls_in_email(email_data)`. -/
structure LegitInputs where
  senderDomain : Option String
  googlePattern : Bool
  isTrusted : Bool
  provider : Option String
  legitUrls : ℕ
  suspUrls : ℕ
  authHeader : String

/-- The `sender_domain and ('gmail.com' in sender_domain or 'google.com' in
sender_domain)` guard (email_verification.py line 361). -/
def googleDomainHit (d : Option String) : Bool :=
  match d with
  | some s => (s != "") && (strHas s "gmail.com" || strHas s "google.com")
  | none => false

/-- `verify_email_legitimacy` state after the trusted-provider and
trusted-URL checks (email_verification.py lines 379-397), before the
high-confidence early return and the authentication fallback. -/
def preAuthLegit (inp : LegitInputs) : LegitimacyResult :=
  let base : LegitimacyResult :=
    { is_legitimate := false, confidence := 0, trusted_provider := inp.provider }
  let r1 := if inp.isTrusted then
      { base with is_legitimate := true, confidence := (0.9 : ℚ) } else base
  if inp.legitUrls > 0 ∧ inp.suspUrls = 0 ∧ inp.isTrusted then
    { r1 with confidence := (0.98 : ℚ) } else r1

/-- `verify_email_legitimacy` (email_verification.py lines 337-428). -/
def verify_email_legitimacy (inp : LegitInputs) : LegitimacyResult :=
  if googleDomainHit inp.senderDomain then
    { is_legitimate := true, confidence := 0.95, trusted_provider := some "google" }
  else if inp.googlePattern then
    { is_legitimate := true, confidence := 0.95, trusted_provider := some "google" }
  else
    let r := preAuthLegit inp
    if r.is_legitimate = true ∧ r.confidence > 0.9 then r
    else
      let a := verify_email_authentication inp.authHeader
      if a.has_authentication then
        if authScore a ≥ 2 then
          { r with is_legitimate := true, confidence := max r.confidence 0.8 }
        else r
      else r

/-! ### Classifier wrapper (`ml_model.PhishingDetector.predict`) -/

/-- Inputs of one `predict` call.  `rawPred` is the outcome of
`float(raw_prediction[0])` (`none` when that raises IndexError / ValueError /
TypeError); `outerRaises` covers any exception in the vectorize / DMatrix /
model-predict / feature-extraction sequence; `highRiskPatterns` and
`suspiciousFormatting` are the risk-factor entries computed from the text. -/
structure PredictInputs where
  modelLoaded : Bool
  reloadOk : Bool
  outerRaises : Bool
  rawPred : Option ℚ
  highRiskPatterns : ℕ
  suspiciousFormatting : Bool

/-- Risk-factor calibration of the raw probability (ml_model.py lines
214-220). -/
def calibratedConfidence (inp : PredictInputs) (c0 : ℚ) : ℚ :=
  if inp.highRiskPatterns ≥ 3 then min (c0 * 1.2) 1
  else if inp.suspiciousFormatting then min (c0 * 1.15) 1
  else c0

/-- `PhishingDetector.predict` (ml_model.py lines 171-241), reduced to the
`(prediction, confidence)` pair. -/
def predict (inp : PredictInputs) : PredConf :=
  if inp.modelLoaded = false ∧ inp.reloadOk = false then
    { prediction := 0, confidence := 1/2 }
  else if inp.outerRaises then
    { prediction := 0, confidence := 1/2 }
  else
    let confidence : ℚ :=
      match inp.rawPred with
      | none => 1/2
      | some c0 =>
        let c1 := calibratedConfidence inp c0
        if ¬ (0 ≤ c1 ∧ c1 ≤ 1) then max 0 (min c1 1) else c1
    { prediction := if confidence ≥ 1/2 then 1 else 0, confidence := confidence }

/-! ### Verdict fusion (`ScanController.scan_email`) -/

/-- Pure inputs of the non-whitelist part of one `scan_email` run: the email
text and sender, the connected-account flag, and the outputs of the oracle
calls (`verify_email_legitimacy`, `detector.predict`,
`analyze_email_with_gemini`, `analyze_urls`). -/
structure FusionInputs where
  emailText : String
  fromAddr : String
  isConnectedAccount : Bool
  legit : LegitimacyResult
  classifier : ClassifierOut
  gemini : GeminiOut
  urlElements : List SuspElem

/-- Whole-scan inputs: the `check_whitelist` result plus the fusion inputs. -/
structure ScanInputs where
  whitelistCheck : WhitelistCheck
  fusion : FusionInputs

/-- `is_email_whitelisted` (whitelist.py lines 426-448): demotes a whitelist
hit whose confidence is below 0.9. -/
def is_email_whitelisted (w : WhitelistCheck) : Bool × String :=
  (w.is_whitelisted && !(decide (w.confidence < 0.9)), w.provider.getD "")

/-- Connected-account trust boost (scan_controller.py lines 226-232 and,
verbatim again, lines 619-625): a connected-account scan whose sender
mentions a Google domain gets a forced high-confidence legitimacy result. -/
def connectedAccountBoost (isConnected : Bool) (fromAddr : String)
    (legit : LegitimacyResult) : LegitimacyResult :=
  if isConnected &&
      (strHasLower fromAddr "google.com" || strHasLower fromAddr "gmail.com") then
    { is_legitimate := true, confidence := 0.98, trusted_provider := some "google" }
  else legit

/-- The legitimacy result `scan_email` actually works with. -/
def effectiveLegit (inp : FusionInputs) : LegitimacyResult :=
  connectedAccountBoost inp.isConnectedAccount inp.fromAddr inp.legit

/-- Gemini reconciliation (scan_controller.py lines 240-295): the
phishing/safe override `elif` chain on the entry prediction, then the
short-message override on the updated prediction.  A missing `verdict` or
`confidence` key raises inside the inner `try` and leaves the working pair
unchanged. -/
def geminiReconcile (emailText : String) (g : GeminiOut) (p : ℕ) (c : ℚ) : PredConf :=
  if g.enabled then
    match g.verdict, g.confidence with
    | some gv, some gc =>
      let step1 : PredConf :=
        if gv = "phishing" ∧ p = 0 then
          (if gc ≥ 0.7 then { prediction := 1, confidence := max c gc }
           else { prediction := p, confidence := c })
        else if gv = "safe" ∧ p = 1 then
          (if gc ≥ 0.6 then { prediction := 0, confidence := gc }
           else if c < 0.7 ∧ gc ≥ 0.5 then
             { prediction := 0, confidence := (gc + (1 - c)) / 2 }
           else { prediction := p, confidence := c })
        else { prediction := p, confidence := c }
      if (pyStrip (lowerChars emailText)).length < 50 ∧ gv = "safe" ∧ gc ≥ 0.8
          ∧ step1.prediction = 1 then
        { prediction := 0, confidence := gc }
      else step1
    | _, _ => { prediction := p, confidence := c }
  else { prediction := p, confidence := c }

/-- The 0.7–1.0 → 0.85–0.95 display-confidence map of the legitimacy
override (scan_controller.py line 302). -/
def legitDisplayConfidence (lc : ℚ) : ℚ := 0.85 + (lc - 0.7) * 0.33

/-- Legitimacy override and safe-confidence inversion (scan_controller.py
lines 297-313): a legitimate sender with confidence above 0.7 forces
`prediction = 0` with the display-confidence map (and records
`is_legitimate_service`); otherwise a safe prediction has its *working*
confidence inverted. -/
def legitOverrideStep (legit : LegitimacyResult) (p : ℕ) (c : ℚ) : FusedState :=
  if legit.is_legitimate = true ∧ legit.confidence > 0.7 then
    { prediction := 0, confidence := legitDisplayConfidence legit.confidence
      legitOverride := true }
  else if p = 0 then { prediction := p, confidence := 1 - c, legitOverride := false }
  else { prediction := p, confidence := c, legitOverride := false }

/-- The fused `(prediction, confidence, is_legitimate_service)` state handed
to percentage conversion and the verdict table. -/
def fusionState (inp : FusionInputs) : FusedState :=
  let lg := effectiveLegit inp
  let pc := geminiReconcile inp.emailText inp.gemini
    inp.classifier.prediction inp.classifier.confidence
  legitOverrideStep lg pc.prediction pc.confidence

/-- The keyword findings appended from the classifier's
`suspicious_keywords` feature (scan_controller.py lines 319-327). -/
def keywordElems (ks : List String) : List SuspElem :=
  ks.map fun k =>
    { type := "keyword", value := k
      reason := "Suspicious keyword or phrase", severity := "low" }

/-- Count of elements with the given severity. -/
def countSeverity (s : String) (elems : List SuspElem) : ℕ :=
  (elems.filter fun e => e.severity == s).length

/-- `has_urgent_keywords` (scan_controller.py lines 340-341). -/
def hasUrgentKeywords (elems : List SuspElem) : Bool :=
  elems.any fun e =>
    e.type == "keyword" &&
      (let v : String := ⟨lowerChars e.value⟩
       v == "urgent" || v == "immediately" || v == "alert" || v == "verify")

/-- `has_high_severity_urls` (scan_controller.py lines 344-345). -/
def hasHighSeverityUrls (elems : List SuspElem) : Bool :=
  elems.any fun e => e.type == "url" && e.severity == "high"

/-- `has_mismatched_links` (scan_controller.py lines 347-349). -/
def hasMismatchedLinks (elems : List SuspElem) : Bool :=
  elems.any fun e => subListOf "mismatched".data (lowerChars e.reason)
    || e.type == "domain_mismatch"

/-- Python truthiness of the `trusted_provider` feature. -/
def provTruthy : Option String → Bool
  | some s => s != ""
  | none => false

/-- The `scan_email` verdict cascade (scan_controller.py lines 356-414),
evaluated on the fused state, the recorded trusted provider and the final
suspicious-element list. -/
def scanVerdict (st : FusedState) (provider : Option String)
    (elems : List SuspElem) : String :=
  let sc := elems.length
  let hi := countSeverity "high" elems
  if st.legitOverride && provTruthy provider then
    (if hi > 0 ∨ sc > 3 then "suspicious" else "safe")
  else if st.prediction = 0 ∧ st.confidence > 0.8 ∧ sc = 0 then "safe"
  else if st.prediction = 0 ∧ st.confidence > 0.6 ∧ sc < 2 ∧ hi = 0 then "safe"
  else if st.prediction = 1 ∧ st.confidence > 0.8 ∧ (sc > 2 ∨ hi > 0) then "phishing"
  else if st.prediction = 1 ∧ st.confidence > 0.6 then "phishing"
  else if sc > 2 ∨ hi > 0 ∨ hasHighSeverityUrls elems = true
      ∨ hasMismatchedLinks elems = true then "suspicious"
  else "suspicious"

/-- Non-whitelist tail of `scan_email` (scan_controller.py lines 218-431):
fusion state, element list, percentage conversion and verdict cascade.  The
`trusted_provider` feature exists only when the legitimacy override wrote
it. -/
def scanFusion (inp : FusionInputs) : ScanResult :=
  let st := fusionState inp
  let elems := inp.urlElements ++ keywordElems inp.classifier.suspiciousKeywords
  let provider := if st.legitOverride then (effectiveLegit inp).trusted_provider
    else none
  { verdict := scanVerdict st provider elems
    confidence := normalize_confidence (.float (.finite st.confidence))
    suspiciousElements := elems }

/-- `scan_email` scan result (scan_controller.py lines 100-506, success
path): the whitelist short-circuit answers `safe` with the raw value `0.98`
in the confidence field and an empty element list; every other scan goes
through the fusion tail. -/
def scanEmailPure (inp : ScanInputs) : ScanResult :=
  if (is_email_whitelisted inp.whitelistCheck).1 then
    { verdict := "safe", confidence := 0.98, suspiciousElements := [] }
  else scanFusion inp.fusion

/-! ### Scan boundaries with exception plumbing

Each call that is not internally wrapped in a catch-all `try` is modelled as
an `Except`-valued input (`.error` = the Python call raised); the boundary
`try/except` of each entry point maps any propagated error to its fallback
response.  Database effects are recorded as an ordered write list. -/

/-- A database effect of one scan. -/
inductive DbWrite where
  | insertScan (verdict : String)
  | updateAnalytics
deriving DecidableEq

/-- Responses of the Flask route `scan_email`: a scan result with HTTP 200,
a 400 for missing request data, or the 500 error JSON produced by the
boundary `except` (scan_controller.py lines 508-511) — which carries only an
`error` message, no verdict. -/
inductive HttpResponse where
  | ok (r : ScanResult)
  | badRequest
  | serverError
deriving DecidableEq

/-- `True` exactly when the modelled call raised. -/
def stepFailed {α : Type} : Except String α → Prop
  | .error _ => True
  | .ok _ => False

instance {α : Type} (x : Except String α) : Decidable (stepFailed x) :=
  match x with
  | .error _ => isTrue trivial
  | .ok _ => isFalse id

/-- Inputs of one `scan_email` route call: the pure scan inputs plus the
outcome of every step that may raise, in source order (`ScanRequest(**data)`,
`detect_email_language`, `translate_email_to_english`, `parse_email`,
`analyze_urls`, and the two database operations). -/
structure RouteInputs where
  scan : ScanInputs
  hasJsonData : Bool
  hasEmailText : Bool
  scanRequest : Except String Unit
  langDetect : Except String Unit
  translate : Except String Unit
  parseEmail : Except String Unit
  analyzeUrls : Except String Unit
  hasUser : Bool
  dbInsertScan : Except String Unit
  dbUpdateAnalytics : Except String Unit

/-- Persistence tail shared by both paths of the route (insert the scan
document, then update analytics); a raised database exception propagates to
the boundary handler, and a scan document inserted before a later failure
stays recorded. -/
def persistTail (r : ScanResult) (hasUser : Bool)
    (ins upd : Except String Unit) : HttpResponse × List DbWrite :=
  if hasUser then
    match ins with
    | .error _ => (.serverError, [])
    | .ok _ =>
      match upd with
      | .error _ => (.serverError, [.insertScan r.verdict])
      | .ok _ => (.ok r, [.insertScan r.verdict, .updateAnalytics])
  else (.ok r, [])

/-- The `scan_email` route (scan_controller.py lines 100-511): request
validation, the fallible pipeline steps in source order, the whitelist
short-circuit, the fusion tail, persistence, and the boundary `except` that
turns any raised exception into a 500 error response. -/
def scanEmailRoute (inp : RouteInputs) : HttpResponse × List DbWrite :=
  if inp.hasJsonData = false then (.badRequest, [])
  else if inp.hasEmailText = false then (.badRequest, [])
  else match inp.scanRequest with
  | .error _ => (.serverError, [])
  | .ok _ => match inp.langDetect with
    | .error _ => (.serverError, [])
    | .ok _ => match inp.translate with
      | .error _ => (.serverError, [])
      | .ok _ => match inp.parseEmail with
        | .error _ => (.serverError, [])
        | .ok _ =>
          if (is_email_whitelisted inp.scan.whitelistCheck).1 then
            persistTail { verdict := "safe", confidence := 0.98, suspiciousElements := [] }
              inp.hasUser inp.dbInsertScan inp.dbUpdateAnalytics
          else match inp.analyzeUrls with
            | .error _ => (.serverError, [])
            | .ok _ =>
              persistTail (scanFusion inp.scan.fusion)
                inp.hasUser inp.dbInsertScan inp.dbUpdateAnalytics

/-! ### `ScanController.scan_email_content` (Gmail integration path) -/

/-- Inputs of one `scan_email_content` call (scan_controller.py lines
514-831).  This entry point has no Gemini step; its fallible steps are
`parse_email`, `detect_email_language`, `translate_email_to_english`,
`analyze_urls` and the database operations. -/
structure ContentInputs where
  fromAddr : String
  isConnectedAccount : Bool
  whitelistCheck : WhitelistCheck
  legit : LegitimacyResult
  classifier : ClassifierOut
  urlElements : List SuspElem
  parseEmail : Except String Unit
  langDetect : Except String Unit
  translate : Except String Unit
  analyzeUrls : Except String Unit
  hasUser : Bool
  dbInsertScan : Except String Unit
  dbUpdateAnalytics : Except String Unit

/-- The error dict returned by the `scan_email_content` boundary `except`
(scan_controller.py lines 824-831). -/
def contentErrorResult : ScanResult :=
  { verdict := "error", confidence := 0, suspiciousElements := [] }

/-- The `scan_email_content` verdict cascade (scan_controller.py lines
700-731). -/
def contentVerdict (ov : Bool) (provider : Option String) (isConnected : Bool)
    (p : ℕ) (c : ℚ) (elems : List SuspElem) : String :=
  let sc := elems.length
  let hi := countSeverity "high" elems
  let med := countSeverity "medium" elems
  if ov && provTruthy provider then "safe"
  else if isConnected = true ∧ p = 0 then "safe"
  else if p = 1 ∧ (c ≥ 0.8
      ∨ (c ≥ 0.65 ∧ hasUrgentKeywords elems = true ∧ hasMismatchedLinks elems = true)
      ∨ hi ≥ 3 ∨ hasHighSeverityUrls elems = true) then "phishing"
  else if p = 1 ∧ (c ≥ 0.6 ∨ (sc ≥ 3 ∧ c ≥ 0.4) ∨ med ≥ 3 ∨ hi ≥ 1) then "suspicious"
  else "safe"

/-- Non-whitelist fusion tail of `scan_email_content` (scan_controller.py
lines 611-756): connected-account boost, legitimacy override or safe
inversion (no Gemini reconciliation here), element list, percentage
conversion and its verdict cascade. -/
def contentFusion (inp : ContentInputs) (urlElems : List SuspElem) : ScanResult :=
  let lg := connectedAccountBoost inp.isConnectedAccount inp.fromAddr inp.legit
  let st : FusedState :=
    if lg.is_legitimate = true ∧ lg.confidence > 0.7 then
      { prediction := 0, confidence := legitDisplayConfidence lg.confidence
        legitOverride := true }
    else if inp.classifier.prediction = 0 then
      { prediction := 0, confidence := 1 - inp.classifier.confidence
        legitOverride := false }
    else
      { prediction := inp.classifier.prediction
        confidence := inp.classifier.confidence, legitOverride := false }
  let elems := urlElems ++ keywordElems inp.classifier.suspiciousKeywords
  let provider := if st.legitOverride then lg.trusted_provider else none
  { verdict := contentVerdict st.legitOverride provider inp.isConnectedAccount
      st.prediction st.confidence elems
    confidence := normalize_confidence (.float (.finite st.confidence))
    suspiciousElements := elems }

/-- Persistence tail of `scan_email_content`: database exceptions propagate
to the boundary `except`, which answers with the error dict. -/
def contentPersistTail (r : ScanResult) (hasUser : Bool)
    (ins upd : Except String Unit) : ScanResult × List DbWrite :=
  if hasUser then
    match ins with
    | .error _ => (contentErrorResult, [])
    | .ok _ =>
      match upd with
      | .error _ => (contentErrorResult, [.insertScan r.verdict])
      | .ok _ => (r, [.insertScan r.verdict, .updateAnalytics])
  else (r, [])

/-- `scan_email_content` (scan_controller.py lines 514-831): fallible steps
in source order, the strict (`> 0.9`) whitelist short-circuit with the
properly percentage-scaled confidence, the fusion tail, persistence, and the
boundary `except` that converts any raised exception into the
`verdict="error"` dict. -/
def scanEmailContent (inp : ContentInputs) : ScanResult × List DbWrite :=
  match inp.parseEmail with
  | .error _ => (contentErrorResult, [])
  | .ok _ => match inp.langDetect with
    | .error _ => (contentErrorResult, [])
    | .ok _ => match inp.translate with
      | .error _ => (contentErrorResult, [])
      | .ok _ =>
        if inp.whitelistCheck.is_whitelisted = true ∧ inp.whitelistCheck.confidence > 0.9 then
          contentPersistTail
            { verdict := "safe", confidence := inp.whitelistCheck.confidence * 100
              suspiciousElements := [] }
            inp.hasUser inp.dbInsertScan inp.dbUpdateAnalytics
        else match inp.analyzeUrls with
          | .error _ => (contentErrorResult, [])
          | .ok _ =>
            contentPersistTail (contentFusion inp inp.urlElements)
              inp.hasUser inp.dbInsertScan inp.dbUpdateAnalytics

/-! ### Concrete scan instances used to settle individual claims -/

/-- A scan with no legitimacy signal in which the LLM safe-override replaces
the working confidence (classifier: phishing at 0.55, Gemini: safe at 0.9). -/
def llmOverrideScan : FusionInputs :=
  { emailText := "Hello, how are you?", fromAddr := "friend@example.com"
    isConnectedAccount := false
    legit := { is_legitimate := false, confidence := 0, trusted_provider := none }
    classifier := { prediction := 1, confidence := 0.55, suspiciousKeywords := [] }
    gemini := { enabled := true, verdict := some "safe", confidence := some 0.9 }
    urlElements := [] }

/-- The §8 end-to-end scenario: short greeting, classifier misfire
(phishing at 0.55), Gemini safe at 0.9, legitimacy unverified, no
suspicious elements. -/
def shortMessageScan : ScanInputs :=
  { whitelistCheck := { is_whitelisted := false, confidence := 0, provider := none }
    fusion := llmOverrideScan }

/-- A scan with the LLM disabled and a plainly safe classifier result. -/
def plainSafeScan : FusionInputs :=
  { emailText := "team lunch at noon", fromAddr := "colleague@example.com"
    isConnectedAccount := false
    legit := { is_legitimate := false, confidence := 0, trusted_provider := none }
    classifier := { prediction := 0, confidence := 0.3, suspiciousKeywords := [] }
    gemini := { enabled := false, verdict := none, confidence := none }
    urlElements := [] }

/-- A hard-whitelisted scan (trusted email, `check_whitelist` confidence
0.95 > 0.9) in which both the classifier and the LLM shout phishing and a
high-severity URL finding exists. -/
def whitelistedScan : ScanInputs :=
  { whitelistCheck :=
    { is_whitelisted := true, confidence := 0.95
      provider := some "GitHub notifications" }
    fusion :=
    { emailText := "release notes", fromAddr := "noreply@github.com"
      isConnectedAccount := false
      legit := { is_legitimate := false, confidence := 0, trusted_provider := none }
      classifier := { prediction := 1, confidence := 0.99, suspiciousKeywords := [] }
      gemini := { enabled := true, verdict := some "phishing", confidence := some 0.99 }
      urlElements :=
        [{ type := "url", value := "http://evil.example", reason := "bad", severity := "high" }] } }

/-- A scan whose legitimacy came from the authentication-header fallback:
legitimate with confidence 0.8 but `trusted_provider = None`, with two
low-severity findings. -/
def authFallbackScan : ScanInputs :=
  { whitelistCheck := { is_whitelisted := false, confidence := 0, provider := none }
    fusion :=
    { emailText := "invoice attached", fromAddr := "billing@smallvendor.example"
      isConnectedAccount := false
      legit := { is_legitimate := true, confidence := 0.8, trusted_provider := none }
      classifier := { prediction := 1, confidence := 0.9, suspiciousKeywords := [] }
      gemini := { enabled := false, verdict := none, confidence := none }
      urlElements :=
        [{ type := "url", value := "http://a.example", reason := "odd tld", severity := "low" },
         { type := "domain", value := "b.example", reason := "odd tld", severity := "low" }] } }

/-- Like `authFallbackScan` but with a named trusted provider. -/
def namedProviderScan : ScanInputs :=
  { whitelistCheck := { is_whitelisted := false, confidence := 0, provider := none }
    fusion :=
    { emailText := "your order shipped", fromAddr := "order@amazon.com"
      isConnectedAccount := false
      legit := { is_legitimate := true, confidence := 0.9, trusted_provider := some "amazon" }
      classifier := { prediction := 1, confidence := 0.9, suspiciousKeywords := [] }
      gemini := { enabled := false, verdict := none, confidence := none }
      urlElements :=
        [{ type := "url", value := "http://a.example", reason := "odd tld", severity := "low" }] } }

/-- Route inputs in which `parse_email` raises and everything else is
healthy. -/
def parseFailRoute : RouteInputs :=
  { scan := shortMessageScan
    hasJsonData := true, hasEmailText := true
    scanRequest := .ok (), langDetect := .ok (), translate := .ok ()
    parseEmail := .error "ValueError: malformed MIME part"
    analyzeUrls := .ok ()
    hasUser := true, dbInsertScan := .ok (), dbUpdateAnalytics := .ok () }

/-- Content-path inputs in which `analyze_urls` raises on a non-whitelisted
email. -/
def urlsFailContent : ContentInputs :=
  { fromAddr := "someone@example.com", isConnectedAccount := false
    whitelistCheck := { is_whitelisted := false, confidence := 0, provider := none }
    legit := { is_legitimate := false, confidence := 0, trusted_provider := none }
    classifier := { prediction := 0, confidence := 0.2, suspiciousKeywords := [] }
    urlElements := []
    parseEmail := .ok (), langDetect := .ok (), translate := .ok ()
    analyzeUrls := .error "dns.resolver failure"
    hasUser := false, dbInsertScan := .ok (), dbUpdateAnalytics := .ok () }

/-- A healthy route call whose LLM assist degraded to `enabled=false`. -/
def llmDownRoute : RouteInputs :=
  { scan := { whitelistCheck := { is_whitelisted := false, confidence := 0, provider := none }
              fusion := plainSafeScan }
    hasJsonData := true, hasEmailText := true
    scanRequest := .ok (), langDetect := .ok (), translate := .ok ()
    parseEmail := .ok (), analyzeUrls := .ok ()
    hasUser := false, dbInsertScan := .ok (), dbUpdateAnalytics := .ok () }

/-- A classifier call in which the prediction array cannot be read
(`float(raw_prediction[0])` raises), with the model loaded. -/
def rawValueFailPredict : PredictInputs :=
  { modelLoaded := true, reloadOk := true, outerRaises := false
    rawPred := none, highRiskPatterns := 0, suspiciousFormatting := false }

/-- The not-loaded fallback input used in the C10 witness. -/
def notLoadedPredict : PredictInputs :=
  { modelLoaded := false, reloadOk := false, outerRaises := false,
    rawPred := some 0.7, highRiskPatterns := 0, suspiciousFormatting := false }

/-- The outer-exception fallback input used in the C10 witness. -/
def outerFailPredict : PredictInputs :=
  { modelLoaded := true, reloadOk := true, outerRaises := true,
    rawPred := some 0.7, highRiskPatterns := 0, suspiciousFormatting := false }

/-- A healthy `predict` call with raw probability 0.7. -/
def successPredict : PredictInputs :=
  { modelLoaded := true, reloadOk := true, outerRaises := false,
    rawPred := some 0.7, highRiskPatterns := 0, suspiciousFormatting := false }

/-- Legitimacy-verifier inputs: unknown small sender, no Google signals, SPF
and DKIM pass in the authentication header. -/
def authHeaderLegitInputs : LegitInputs :=
  { senderDomain := some "smallvendor.example", googlePattern := false
    isTrusted := false, provider := none, legitUrls := 0, suspUrls := 0
    authHeader := "mx.example.com; spf=pass; dkim=pass; dmarc=fail" }

/-! ### Shared lemmas -/

lemma le_pyRoundInt {lo : ℤ} {x : ℚ} (h : (lo : ℚ) ≤ x) : lo ≤ pyRoundInt x := by
  have hf : lo ≤ Int.floor x := Int.le_floor.mpr h
  unfold pyRoundInt
  split_ifs <;> omega

lemma pyRoundInt_le {x : ℚ} {hi : ℤ} (h : x ≤ (hi : ℚ)) : pyRoundInt x ≤ hi := by
  have hfl : Int.floor x ≤ hi := by
    have := Int.floor_le_floor h
    simpa using this
  have hfle : (Int.floor x : ℚ) ≤ x := Int.floor_le x
  unfold pyRoundInt
  split_ifs with h1 h2 h3
  · exact hfl
  · have hx : (Int.floor x : ℚ) + 1/2 < x := by linarith
    have : (Int.floor x : ℚ) < (hi : ℚ) := by linarith
    have : Int.floor x < hi := by exact_mod_cast this
    omega
  · exact hfl
  · have h1' : (1 : ℚ)/2 ≤ x - (Int.floor x : ℚ) := not_lt.mp h1
    have : (Int.floor x : ℚ) < (hi : ℚ) := by linarith
    have : Int.floor x < hi := by exact_mod_cast this
    omega

lemma pyRound2_bounds {q : ℚ} (h0 : 0 ≤ q) (h1 : q ≤ 100) :
    0 ≤ pyRound2 q ∧ pyRound2 q ≤ 100 := by
  have hn0 : (0 : ℤ) ≤ pyRoundInt (q * 100) := le_pyRoundInt (by push_cast; linarith)
  have hn1 : pyRoundInt (q * 100) ≤ (10000 : ℤ) := pyRoundInt_le (by push_cast; linarith)
  unfold pyRound2
  constructor
  · apply div_nonneg _ (by norm_num)
    exact_mod_cast hn0
  · rw [div_le_iff₀ (by norm_num)]
    calc ((pyRoundInt (q * 100) : ℤ) : ℚ) ≤ (10000 : ℚ) := by exact_mod_cast hn1
    _ = 100 * 100 := by norm_num

lemma normNum_bounds (q : ℚ) : 0 ≤ normNum q ∧ normNum q ≤ 100 := by
  unfold normNum
  split_ifs with hq hle
  · exact pyRound2_bounds (by linarith) hle
  · exact pyRound2_bounds (by norm_num) (by norm_num)
  · have hm0 : (0 : ℚ) ≤ max 0 (min q 1) := le_max_left 0 _
    have hm1 : max 0 (min q 1) ≤ 1 := by
      apply max_le (by norm_num)
      exact (min_le_right q 1)
    exact pyRound2_bounds (by linarith) (by linarith)

lemma normalize_confidence_bounds (v : ConfVal) :
    0 ≤ normalize_confidence v ∧ normalize_confidence v ≤ 100 := by
  cases v with
  | int n => exact normNum_bounds _
  | float f => cases f with
    | finite q => exact normNum_bounds q
    | nan => refine ⟨by norm_num [normalize_confidence], by norm_num [normalize_confidence]⟩
    | inf => refine ⟨by norm_num [normalize_confidence], by norm_num [normalize_confidence]⟩
    | ninf => refine ⟨by norm_num [normalize_confidence], by norm_num [normalize_confidence]⟩
  | bool b => exact normNum_bounds _
  | str p =>
    match p with
    | Option.none => exact ⟨by norm_num [normalize_confidence], by norm_num [normalize_confidence]⟩
    | some (.finite q) => exact normNum_bounds q
    | some .nan => exact ⟨by norm_num [normalize_confidence], by norm_num [normalize_confidence]⟩
    | some .inf => exact ⟨by norm_num [normalize_confidence], by norm_num [normalize_confidence]⟩
    | some .ninf => exact ⟨by norm_num [normalize_confidence], by norm_num [normalize_confidence]⟩
  | none => exact ⟨by norm_num [normalize_confidence], by norm_num [normalize_confidence]⟩
  | other => exact ⟨by norm_num [normalize_confidence], by norm_num [normalize_confidence]⟩

lemma scanVerdict_mem (st : FusedState) (provider : Option String)
    (elems : List SuspElem) :
    scanVerdict st provider elems = "safe" ∨ scanVerdict st provider elems = "suspicious"
      ∨ scanVerdict st provider elems = "phishing" := by
  simp only [scanVerdict]
  split_ifs <;> simp

lemma scanEmailPure_verdict_mem (inp : ScanInputs) :
    (scanEmailPure inp).verdict = "safe" ∨ (scanEmailPure inp).verdict = "suspicious"
      ∨ (scanEmailPure inp).verdict = "phishing" := by
  unfold scanEmailPure
  split_ifs
  · simp
  · exact scanVerdict_mem _ _ _

lemma persistTail_fst (r : ScanResult) (hu : Bool) (ins upd : Except String Unit)
    (h : hu = false ∨ (¬ stepFailed ins ∧ ¬ stepFailed upd)) :
    (persistTail r hu ins upd).1 = .ok r := by
  rcases h with h | ⟨hi, hup⟩
  · simp [persistTail, h]
  · cases hins : ins with
    | error e => rw [hins] at hi; exact absurd trivial hi
    | ok u =>
      cases hupd : upd with
      | error e => rw [hupd] at hup; exact absurd trivial hup
      | ok u2 =>
        cases u; cases u2
        unfold persistTail
        split_ifs <;> simp

lemma conditional_clamp_eq (c1 : ℚ) :
    (if ¬ (0 ≤ c1 ∧ c1 ≤ 1) then max 0 (min c1 1) else c1) = max 0 (min c1 1) := by
  by_cases h : 0 ≤ c1 ∧ c1 ≤ 1
  · rw [if_neg (not_not_intro h), min_eq_left h.2, max_eq_right h.1]
  · rw [if_pos h]

lemma clamp01_mem (c1 : ℚ) : 0 ≤ max 0 (min c1 1) ∧ max 0 (min c1 1) ≤ 1 :=
  ⟨le_max_left 0 _, max_le (by norm_num) (min_le_right c1 1)⟩

/-! ### Claim theorems -/

/-- C3: the confidence normalizer is total and range-bounded — for every
input (numeric, string-numeric, None, NaN, ±infinity, or any other type)
`normalize_confidence` lands in `[0, 100]` — and it satisfies all ten
reference examples, including the unparseable-string and None fallbacks. -/
theorem C3_normalizer_total_and_examples :
    (∀ v : ConfVal, 0 ≤ normalize_confidence v ∧ normalize_confidence v ≤ 100)
    ∧ normalize_confidence (.float (.finite 0.438)) = 43.8
    ∧ normalize_confidence (.float (.finite 0)) = 0
    ∧ normalize_confidence (.float (.finite 1)) = 100
    ∧ normalize_confidence (.float (.finite 43.8)) = 43.8
    ∧ normalize_confidence (.float (.finite 4.38)) = 4.38
    ∧ normalize_confidence (.float (.finite (-0.5))) = 0
    ∧ normalize_confidence (.str Option.none) = 50
    ∧ normalize_confidence ConfVal.none = 50
    ∧ normalize_confidence (.int 6487) = 100
    ∧ normalize_confidence (.float (.finite 0.9999)) = 99.99 := by
  refine ⟨normalize_confidence_bounds, ?_, ?_, ?_, ?_, ?_, ?_, ?_, ?_, ?_, ?_⟩ <;>
    norm_num [normalize_confidence, normNum, pyRound2, pyRoundInt]

/-- C5: whenever the legitimacy result is positive with confidence above
0.7, the override step forces `prediction = 0` with display confidence
exactly `0.85 + (legitimacyConfidence − 0.7) × 0.33`, and over the whole
`[0.7, 1]` legitimacy range that map stays inside `[0.85, 0.95]`. -/
theorem C5_legitimacy_override_band (lg : LegitimacyResult) (p : ℕ) (c : ℚ)
    (hleg : lg.is_legitimate = true) (hconf : (0.7 : ℚ) < lg.confidence) :
    legitOverrideStep lg p c =
      { prediction := 0, confidence := legitDisplayConfidence lg.confidence
        legitOverride := true }
    ∧ ∀ x : ℚ, 0.7 ≤ x → x ≤ 1 →
        0.85 ≤ legitDisplayConfidence x ∧ legitDisplayConfidence x ≤ 0.95 := by
  constructor
  · unfold legitOverrideStep
    rw [if_pos ⟨hleg, hconf⟩]
  · intro x hx0 hx1
    unfold legitDisplayConfidence
    constructor <;> nlinarith

/-- Witness for C5 at legitimacy confidence 0.8 (and band check at 0.75). -/
theorem C5_legitimacy_override_band_witness :
    legitOverrideStep { is_legitimate := true, confidence := 0.8, trusted_provider := none } 1 0.3 =
      { prediction := 0, confidence := legitDisplayConfidence 0.8, legitOverride := true }
    ∧ 0.85 ≤ legitDisplayConfidence 0.75 ∧ legitDisplayConfidence 0.75 ≤ 0.95 := by
  have h := C5_legitimacy_override_band
    { is_legitimate := true, confidence := 0.8, trusted_provider := none } 1 0.3
    rfl (by norm_num)
  exact ⟨h.1, h.2 0.75 (by norm_num) (by norm_num)⟩

/-- C2 (code evaluation at the spec's end-to-end scenario): on the short
greeting with classifier `(1, 0.55)`, Gemini safe at 0.9, no legitimacy and
no suspicious elements, `scan_email` answers verdict `"suspicious"` with
confidence 10 — the ≥0.6 safe override fires first (so the short-message
override cannot), and the LLM's safeness confidence 0.9 is then inverted to
0.1 by the safe-confidence step, failing every safe rule of the cascade. -/
theorem C2_short_message_scenario_eval :
    scanEmailPure shortMessageScan =
      { verdict := "suspicious", confidence := 10, suspiciousElements := [] }
    ∧ geminiReconcile llmOverrideScan.emailText llmOverrideScan.gemini
        llmOverrideScan.classifier.prediction llmOverrideScan.classifier.confidence =
      { prediction := 0, confidence := 0.9 } := by
  constructor <;>
    norm_num [shortMessageScan, llmOverrideScan, scanEmailPure, is_email_whitelisted,
      scanFusion, fusionState, effectiveLegit, connectedAccountBoost, geminiReconcile,
      legitOverrideStep, legitDisplayConfidence, scanVerdict, keywordElems,
      countSeverity, hasHighSeverityUrls, hasMismatchedLinks, provTruthy,
      normalize_confidence, normNum, pyRound2, pyRoundInt, strHasLower, lowerChars]

/-- C4 (code evaluation at a hard-whitelisted scan): with `check_whitelist`
confidence 0.95 > 0.9, `scan_email` short-circuits to verdict `"safe"` with
an empty element list even though the classifier and LLM both said phishing
at 0.99 — but the confidence field carries the raw probability 0.98, not a
value near 98 on the 0–100 percentage scale. -/
theorem C4_whitelist_eval :
    scanEmailPure whitelistedScan =
      { verdict := "safe", confidence := 0.98, suspiciousElements := [] }
    ∧ (scanEmailPure whitelistedScan).confidence < 90 := by
  constructor <;>
    norm_num [whitelistedScan, scanEmailPure, is_email_whitelisted]

/-- C1 counterexample: in the `llmOverrideScan` scan the legitimacy override
does not apply and the post-reconciliation prediction is 0, yet the
confidence handed to percentage conversion is `1 − 0.9` (the LLM's safeness
confidence got inverted), not `1 − rawConfidence = 1 − 0.55`. -/
theorem C1_safe_inversion_cex :
    (fusionState llmOverrideScan).legitOverride = false
    ∧ (geminiReconcile llmOverrideScan.emailText llmOverrideScan.gemini
        llmOverrideScan.classifier.prediction llmOverrideScan.classifier.confidence).prediction = 0
    ∧ (fusionState llmOverrideScan).confidence
        ≠ 1 - llmOverrideScan.classifier.confidence := by
  refine ⟨?_, ?_, ?_⟩ <;>
    norm_num [llmOverrideScan, fusionState, effectiveLegit, connectedAccountBoost,
      geminiReconcile, legitOverrideStep, legitDisplayConfidence, strHasLower,
      lowerChars]

/-- C1 (amended): when the legitimacy override does not apply and the
post-reconciliation prediction is 0, the confidence handed to percentage
conversion is 1 minus the post-reconciliation *working* confidence; it
equals `1 − rawConfidence` exactly when LLM reconciliation left the
working confidence unchanged. -/
theorem C1_safe_inversion_amended (inp : FusionInputs)
    (hno : ¬ ((effectiveLegit inp).is_legitimate = true
      ∧ (effectiveLegit inp).confidence > 0.7))
    (hp : (geminiReconcile inp.emailText inp.gemini
      inp.classifier.prediction inp.classifier.confidence).prediction = 0) :
    (fusionState inp).confidence
      = 1 - (geminiReconcile inp.emailText inp.gemini
          inp.classifier.prediction inp.classifier.confidence).confidence
    ∧ ((geminiReconcile inp.emailText inp.gemini
          inp.classifier.prediction inp.classifier.confidence).confidence
        = inp.classifier.confidence →
      (fusionState inp).confidence = 1 - inp.classifier.confidence) := by
  have h1 : (fusionState inp).confidence
      = 1 - (geminiReconcile inp.emailText inp.gemini
          inp.classifier.prediction inp.classifier.confidence).confidence := by
    simp only [fusionState, legitOverrideStep]
    rw [if_neg hno, if_pos hp]
  exact ⟨h1, fun hc => by rw [h1, hc]⟩

/-- Witness for C1 (amended) on a plain scan with the LLM disabled. -/
theorem C1_safe_inversion_amended_witness :
    (fusionState plainSafeScan).confidence
      = 1 - (geminiReconcile plainSafeScan.emailText plainSafeScan.gemini
          plainSafeScan.classifier.prediction plainSafeScan.classifier.confidence).confidence
    ∧ (fusionState plainSafeScan).confidence = 1 - plainSafeScan.classifier.confidence := by
  have h := C1_safe_inversion_amended plainSafeScan
    (by norm_num [plainSafeScan, effectiveLegit, connectedAccountBoost])
    (by norm_num [plainSafeScan, geminiReconcile])
  exact ⟨h.1, h.2 (by norm_num [plainSafeScan, geminiReconcile])⟩

/-- C6 counterexample: a scan whose legitimacy override applied through the
authentication-header fallback (`trusted_provider = None`, confidence 0.8),
with two low-severity findings (so zero high-severity and count ≤ 3), ends
with verdict `"suspicious"`, not `"safe"` — the first verdict row also
requires a truthy `trusted_provider`. -/
theorem C6_first_row_cex :
    (fusionState authFallbackScan.fusion).legitOverride = true
    ∧ countSeverity "high" (authFallbackScan.fusion.urlElements
        ++ keywordElems authFallbackScan.fusion.classifier.suspiciousKeywords) = 0
    ∧ (authFallbackScan.fusion.urlElements
        ++ keywordElems authFallbackScan.fusion.classifier.suspiciousKeywords).length ≤ 3
    ∧ (scanEmailPure authFallbackScan).verdict = "suspicious" := by
  refine ⟨?_, ?_, ?_, ?_⟩ <;>
    (norm_num [authFallbackScan, scanEmailPure, is_email_whitelisted, scanFusion,
      fusionState, effectiveLegit, connectedAccountBoost, geminiReconcile,
      legitOverrideStep, legitDisplayConfidence, scanVerdict, keywordElems,
      countSeverity, hasHighSeverityUrls, hasMismatchedLinks, provTruthy,
      strHasLower, lowerChars, subListOf, leadMatch]
     try decide)

/-- C6 (amended): on every non-whitelisted scan in which the legitimacy
override applied *and the legitimacy result names a trusted provider*
(non-empty), zero high-severity findings and at most 3 findings give final
verdict `"safe"`. -/
theorem C6_first_row_amended (inp : ScanInputs)
    (hwl : (is_email_whitelisted inp.whitelistCheck).1 = false)
    (hov : (fusionState inp.fusion).legitOverride = true)
    (hprov : provTruthy (effectiveLegit inp.fusion).trusted_provider = true)
    (hhi : countSeverity "high" (inp.fusion.urlElements
      ++ keywordElems inp.fusion.classifier.suspiciousKeywords) = 0)
    (hsc : (inp.fusion.urlElements
      ++ keywordElems inp.fusion.classifier.suspiciousKeywords).length ≤ 3) :
    (scanEmailPure inp).verdict = "safe" := by
  simp only [scanEmailPure, hwl, Bool.false_eq_true, if_false]
  simp only [scanFusion, scanVerdict, hov, if_true, hprov, Bool.and_self]
  rw [if_neg (by omega)]

/-- Witness for C6 (amended): provider-verified legitimate scan with one
low-severity finding. -/
theorem C6_first_row_amended_witness :
    (scanEmailPure namedProviderScan).verdict = "safe" := by
  refine C6_first_row_amended namedProviderScan ?_ ?_ ?_ ?_ ?_ <;>
    (norm_num [namedProviderScan, is_email_whitelisted, fusionState, effectiveLegit,
      connectedAccountBoost, geminiReconcile, legitOverrideStep, provTruthy,
      keywordElems, countSeverity]
     try decide)

/-- C9: in the legitimacy verifier, when no earlier branch established
legitimacy with confidence above 0.9 (no Google-domain hit, no Google
pattern, and the trusted-provider/URL state is not above 0.9) and the
`Authentication-Results` header shows at least two of SPF/DKIM/DMARC
passing, the result is legitimate with confidence
`max(confidence so far, 0.8)`. -/
theorem C9_auth_fallback (inp : LegitInputs)
    (h1 : googleDomainHit inp.senderDomain = false)
    (h2 : inp.googlePattern = false)
    (h3 : ¬ ((preAuthLegit inp).is_legitimate = true
      ∧ (preAuthLegit inp).confidence > 0.9))
    (h4 : authScore (verify_email_authentication inp.authHeader) ≥ 2) :
    (verify_email_legitimacy inp).is_legitimate = true
    ∧ (verify_email_legitimacy inp).confidence
        = max (preAuthLegit inp).confidence 0.8 := by
  have hh : ¬ (inp.authHeader = "") := by
    intro he
    simp [verify_email_authentication, he, authScore] at h4
  have hauth : (verify_email_authentication inp.authHeader).has_authentication = true := by
    simp [verify_email_authentication, hh]
  simp only [verify_email_legitimacy, h1, h2, Bool.false_eq_true, if_false]
  rw [if_neg h3, if_pos hauth, if_pos h4]
  exact ⟨rfl, rfl⟩

/-- Witness for C9: unknown sender, SPF and DKIM pass in the header. -/
theorem C9_auth_fallback_witness :
    (verify_email_legitimacy authHeaderLegitInputs).is_legitimate = true
    ∧ (verify_email_legitimacy authHeaderLegitInputs).confidence
        = max (preAuthLegit authHeaderLegitInputs).confidence 0.8 := by
  refine C9_auth_fallback authHeaderLegitInputs ?_ ?_ ?_ ?_
  · decide
  · rfl
  · norm_num [preAuthLegit, authHeaderLegitInputs]
  · decide

/-- C10 counterexample: when the model is loaded and the prediction call
succeeds but `float(raw_prediction[0])` raises, the fallback substitutes
confidence 0.5 — and the subsequent threshold test then returns prediction
1, not the prediction 0 the claim promises for every fallback path. -/
theorem C10_fallback_cex :
    predict rawValueFailPredict = { prediction := 1, confidence := 1/2 }
    ∧ (predict rawValueFailPredict).prediction ≠ 0 := by
  constructor <;> norm_num [predict, rawValueFailPredict, calibratedConfidence]

/-- C10 (amended): `predict` is total and range-bounded — every branch
returns a prediction in `{0,1}` and a confidence in `[0,1]`; the
model-not-loaded and outer-exception fallbacks return `(0, 0.5)`; the inner
raw-value fallback substitutes confidence 0.5 and therefore returns
`(1, 0.5)`; on the success path the confidence is the `[0,1]` clamp of the
calibrated value and the prediction is 1 exactly when the pre-clamp
calibrated confidence is at least 0.5. -/
theorem C10_predict_total_amended :
    (∀ inp : PredictInputs,
      ((predict inp).prediction = 0 ∨ (predict inp).prediction = 1)
      ∧ 0 ≤ (predict inp).confidence ∧ (predict inp).confidence ≤ 1)
    ∧ (∀ inp : PredictInputs, inp.modelLoaded = false → inp.reloadOk = false →
        predict inp = { prediction := 0, confidence := 1/2 })
    ∧ (∀ inp : PredictInputs, ¬ (inp.modelLoaded = false ∧ inp.reloadOk = false) →
        inp.outerRaises = true →
        predict inp = { prediction := 0, confidence := 1/2 })
    ∧ (∀ inp : PredictInputs, ¬ (inp.modelLoaded = false ∧ inp.reloadOk = false) →
        inp.outerRaises = false → inp.rawPred = Option.none →
        predict inp = { prediction := 1, confidence := 1/2 })
    ∧ (∀ (inp : PredictInputs) (c0 : ℚ),
        ¬ (inp.modelLoaded = false ∧ inp.reloadOk = false) →
        inp.outerRaises = false → inp.rawPred = some c0 →
        (predict inp).confidence = max 0 (min (calibratedConfidence inp c0) 1)
        ∧ ((predict inp).prediction = 1 ↔ 1/2 ≤ calibratedConfidence inp c0)) := by
  refine ⟨?_, ?_, ?_, ?_, ?_⟩
  · intro inp
    unfold predict
    split_ifs with hload houter
    · exact ⟨Or.inl rfl, by norm_num, by norm_num⟩
    · exact ⟨Or.inl rfl, by norm_num, by norm_num⟩
    · cases hr : inp.rawPred with
      | none =>
        simp only [hr]
        refine ⟨?_, by norm_num, by norm_num⟩
        split_ifs <;> simp
      | some c0 =>
        simp only [hr, conditional_clamp_eq]
        refine ⟨?_, (clamp01_mem _).1, (clamp01_mem _).2⟩
        split_ifs <;> simp
  · intro inp h1 h2
    unfold predict
    rw [if_pos ⟨h1, h2⟩]
  · intro inp h1 h2
    unfold predict
    rw [if_neg h1, if_pos h2]
  · intro inp h1 h2 h3
    unfold predict
    rw [if_neg h1, if_neg (by simp [h2])]
    simp only [h3]
    norm_num
  · intro inp c0 h1 h2 h3
    have hconf : (predict inp).confidence
        = max 0 (min (calibratedConfidence inp c0) 1) := by
      unfold predict
      rw [if_neg h1, if_neg (by simp [h2])]
      simp only [h3, conditional_clamp_eq]
    have hpred : (predict inp).prediction
        = (if max 0 (min (calibratedConfidence inp c0) 1) ≥ 1/2 then 1 else 0) := by
      unfold predict
      rw [if_neg h1, if_neg (by simp [h2])]
      simp only [h3, conditional_clamp_eq]
    have hiff : (1 : ℚ)/2 ≤ max 0 (min (calibratedConfidence inp c0) 1)
        ↔ 1/2 ≤ calibratedConfidence inp c0 := by
      rw [le_max_iff, le_min_iff]
      constructor
      · rintro (h | ⟨h, _⟩)
        · linarith
        · exact h
      · intro h
        exact Or.inr ⟨h, by norm_num⟩
    refine ⟨hconf, ?_, ?_⟩
    · intro h
      rw [hpred] at h
      by_cases hge : (1 : ℚ)/2 ≤ max 0 (min (calibratedConfidence inp c0) 1)
      · exact hiff.mp hge
      · rw [if_neg hge] at h
        simp at h
    · intro h
      rw [hpred, if_pos (hiff.mpr h)]

/-- Witness for C10 (amended) at the three fallback inputs and a success
input with raw probability 0.7. -/
theorem C10_predict_total_amended_witness :
    predict notLoadedPredict = { prediction := 0, confidence := 1/2 }
    ∧ predict outerFailPredict = { prediction := 0, confidence := 1/2 }
    ∧ predict rawValueFailPredict = { prediction := 1, confidence := 1/2 }
    ∧ (predict successPredict).confidence
        = max 0 (min (calibratedConfidence successPredict 0.7) 1) := by
  refine ⟨C10_predict_total_amended.2.1 _ rfl rfl,
    C10_predict_total_amended.2.2.1 _ (by norm_num [outerFailPredict]) rfl,
    C10_predict_total_amended.2.2.2.1 _ (by norm_num [rawValueFailPredict]) rfl rfl,
    (C10_predict_total_amended.2.2.2.2 _ 0.7 (by norm_num [successPredict]) rfl rfl).1⟩

/-- C7 counterexample: a `scan_email` route call in which `parse_email`
raises is answered with the 500 error response — which carries no
`verdict="error" / confidence 0` result object at all — so the claim's
"converted into a result with verdict error, confidence 0" fails for this
scan boundary (nothing is persisted, though). -/
theorem C7_error_boundary_cex :
    scanEmailRoute parseFailRoute = (.serverError, [])
    ∧ HttpResponse.serverError ≠ HttpResponse.ok contentErrorResult := by
  constructor
  · rfl
  · simp

/-- C7 (amended): an exception raised inside the fusion pipeline (steps
1–9, i.e. before persistence) is always caught at the scan boundary and
nothing is persisted; `scan_email_content` converts it into the result with
verdict `"error"`, confidence 0 and no suspicious elements, while the HTTP
route `scan_email` reports it as a 500 error response without a verdict. -/
theorem C7_error_boundary_amended :
    (∀ cinp : ContentInputs,
      (stepFailed cinp.parseEmail ∨ stepFailed cinp.langDetect
        ∨ stepFailed cinp.translate
        ∨ (¬ (cinp.whitelistCheck.is_whitelisted = true
              ∧ cinp.whitelistCheck.confidence > 0.9)
            ∧ stepFailed cinp.analyzeUrls)) →
      scanEmailContent cinp = (contentErrorResult, []))
    ∧ (∀ rinp : RouteInputs,
      rinp.hasJsonData = true → rinp.hasEmailText = true →
      (stepFailed rinp.scanRequest ∨ stepFailed rinp.langDetect
        ∨ stepFailed rinp.translate ∨ stepFailed rinp.parseEmail
        ∨ ((is_email_whitelisted rinp.scan.whitelistCheck).1 = false
            ∧ stepFailed rinp.analyzeUrls)) →
      scanEmailRoute rinp = (.serverError, [])) := by
  constructor
  · intro cinp h
    rcases hp : cinp.parseEmail with ep | up
    · simp [scanEmailContent, hp]
    · rcases hl : cinp.langDetect with el | ul
      · simp [scanEmailContent, hp, hl]
      · rcases ht : cinp.translate with et | ut
        · simp [scanEmailContent, hp, hl, ht]
        · rcases h with h | h | h | ⟨hw, ha⟩
          · rw [hp] at h; simp [stepFailed] at h
          · rw [hl] at h; simp [stepFailed] at h
          · rw [ht] at h; simp [stepFailed] at h
          · rcases hu : cinp.analyzeUrls with eu | uu
            · simp only [scanEmailContent, hp, hl, ht]
              rw [if_neg hw]
              simp [hu]
            · rw [hu] at ha; simp [stepFailed] at ha
  · intro rinp hjd het h
    have hjd' : ¬ (rinp.hasJsonData = false) := by simp [hjd]
    have het' : ¬ (rinp.hasEmailText = false) := by simp [het]
    rcases hsr : rinp.scanRequest with e1 | u1
    · simp only [scanEmailRoute, hsr]
      rw [if_neg hjd', if_neg het']
    · rcases hld : rinp.langDetect with e2 | u2
      · simp only [scanEmailRoute, hsr, hld]
        rw [if_neg hjd', if_neg het']
      · rcases htr : rinp.translate with e3 | u3
        · simp only [scanEmailRoute, hsr, hld, htr]
          rw [if_neg hjd', if_neg het']
        · rcases hpe : rinp.parseEmail with e4 | u4
          · simp only [scanEmailRoute, hsr, hld, htr, hpe]
            rw [if_neg hjd', if_neg het']
          · rcases h with h | h | h | h | ⟨hw, ha⟩
            · rw [hsr] at h; simp [stepFailed] at h
            · rw [hld] at h; simp [stepFailed] at h
            · rw [htr] at h; simp [stepFailed] at h
            · rw [hpe] at h; simp [stepFailed] at h
            · rcases hau : rinp.analyzeUrls with e5 | u5
              · simp only [scanEmailRoute, hsr, hld, htr, hpe, hau]
                rw [if_neg hjd', if_neg het']
                rw [if_neg (by simp [hw])]
              · rw [hau] at ha; simp [stepFailed] at ha

/-- Witness for C7 (amended): a content scan with a raised DNS analysis and
a route scan with a raised parser. -/
theorem C7_error_boundary_amended_witness :
    scanEmailContent urlsFailContent = (contentErrorResult, [])
    ∧ scanEmailRoute parseFailRoute = (.serverError, []) := by
  constructor
  · exact C7_error_boundary_amended.1 urlsFailContent
      (Or.inr (Or.inr (Or.inr ⟨by norm_num [urlsFailContent], by simp [urlsFailContent, stepFailed]⟩)))
  · exact C7_error_boundary_amended.2 parseFailRoute rfl rfl
      (Or.inr (Or.inr (Or.inr (Or.inl (by simp [parseFailRoute, stepFailed])))))

/-- C8: the LLM assist never raises into the fusion engine — the client
being unavailable, a missing API key, a failed configuration, and any
exception in the API call / JSON parsing (API errors, quota exhaustion,
malformed responses) all yield `enabled = false` — and a scan whose other
steps are healthy still returns one of the non-error verdicts
safe/suspicious/phishing when the LLM has degraded. -/
theorem C8_llm_never_raises :
    (∀ env : GeminiEnv, env.clientAvailable = false →
      (analyzeEmailWithGemini env).enabled = false)
    ∧ (∀ env : GeminiEnv, env.apiKeySet = false →
      (analyzeEmailWithGemini env).enabled = false)
    ∧ (∀ env : GeminiEnv, env.configureOk = false →
      (analyzeEmailWithGemini env).enabled = false)
    ∧ (∀ (env : GeminiEnv) (e : String), env.attempt = .error e →
      (analyzeEmailWithGemini env).enabled = false)
    ∧ (∀ rinp : RouteInputs, rinp.scan.fusion.gemini.enabled = false →
      rinp.hasJsonData = true → rinp.hasEmailText = true →
      ¬ stepFailed rinp.scanRequest → ¬ stepFailed rinp.langDetect →
      ¬ stepFailed rinp.translate → ¬ stepFailed rinp.parseEmail →
      ¬ stepFailed rinp.analyzeUrls →
      (rinp.hasUser = false
        ∨ (¬ stepFailed rinp.dbInsertScan ∧ ¬ stepFailed rinp.dbUpdateAnalytics)) →
      (scanEmailRoute rinp).1 = .ok (scanEmailPure rinp.scan)
      ∧ ((scanEmailPure rinp.scan).verdict = "safe"
        ∨ (scanEmailPure rinp.scan).verdict = "suspicious"
        ∨ (scanEmailPure rinp.scan).verdict = "phishing")) := by
  refine ⟨?_, ?_, ?_, ?_, ?_⟩
  · intro env h; simp [analyzeEmailWithGemini, h]
  · intro env h; simp [analyzeEmailWithGemini, h]
  · intro env h; simp [analyzeEmailWithGemini, h]
  · intro env e h
    unfold analyzeEmailWithGemini
    split_ifs
    · rw [h]
    · rfl
  · intro rinp hg hjd het hsr hld htr hpe hau hdb
    refine ⟨?_, scanEmailPure_verdict_mem rinp.scan⟩
    have hjd' : ¬ (rinp.hasJsonData = false) := by simp [hjd]
    have het' : ¬ (rinp.hasEmailText = false) := by simp [het]
    rcases h1 : rinp.scanRequest with e | u1
    · rw [h1] at hsr; simp [stepFailed] at hsr
    rcases h2 : rinp.langDetect with e | u2
    · rw [h2] at hld; simp [stepFailed] at hld
    rcases h3 : rinp.translate with e | u3
    · rw [h3] at htr; simp [stepFailed] at htr
    rcases h4 : rinp.parseEmail with e | u4
    · rw [h4] at hpe; simp [stepFailed] at hpe
    simp only [scanEmailRoute, h1, h2, h3, h4]
    rw [if_neg hjd', if_neg het']
    by_cases hwl : (is_email_whitelisted rinp.scan.whitelistCheck).1 = true
    · rw [if_pos hwl, persistTail_fst _ _ _ _ hdb]
      simp [scanEmailPure, hwl]
    · rw [if_neg hwl]
      rcases h5 : rinp.analyzeUrls with e | u5
      · rw [h5] at hau; simp [stepFailed] at hau
      rw [persistTail_fst _ _ _ _ hdb]
      simp [scanEmailPure, hwl]

/-- Witness for C8 at a client-less call, a quota failure, and a healthy
scan whose LLM assist is down. -/
theorem C8_llm_never_raises_witness :
    (analyzeEmailWithGemini
      { clientAvailable := false, apiKeySet := false, configureOk := false,
        attempt := .error "module import failed" }).enabled = false
    ∧ (analyzeEmailWithGemini
      { clientAvailable := true, apiKeySet := true, configureOk := true,
        attempt := .error "429 RESOURCE_EXHAUSTED: quota" }).enabled = false
    ∧ (scanEmailRoute llmDownRoute).1 = .ok (scanEmailPure llmDownRoute.scan)
    ∧ ((scanEmailPure llmDownRoute.scan).verdict = "safe"
      ∨ (scanEmailPure llmDownRoute.scan).verdict = "suspicious"
      ∨ (scanEmailPure llmDownRoute.scan).verdict = "phishing") := by
  have h := C8_llm_never_raises.2.2.2.2 llmDownRoute rfl rfl rfl
    (fun h => h) (fun h => h) (fun h => h) (fun h => h) (fun h => h)
    (Or.inl rfl)
  exact ⟨C8_llm_never_raises.1 _ rfl,
    C8_llm_never_raises.2.2.2.1 _ "429 RESOURCE_EXHAUSTED: quota" rfl,
    h.1, h.2⟩

end PhishScan
